import Mathlib

/-! Verification of the `ntfy_client` notification library.

Shallow embedding of `src/ntfy_client/client.py`:

* byte-level primitives (UTF-8 encoding/decoding, lowercase hex, base64,
  SHA-256, HMAC-SHA256) modelling the Python standard-library calls the
  client makes;
* the four topic-generation strategies of `NtfyClient.generate_secure_topic`;
* the HTTP-facing operations `send_notification`, `subscribe` and the
  `ntfy` decorator, parametrised over an abstract transport so that the
  number and shape of issued requests is observable.

Randomness (`secrets.token_bytes` / `token_hex`) is modelled by an explicit
entropy stream `Nat → Fin 256`; each operation reads the bytes it needs at
fixed offsets, exactly as many as the source draws.
-/

/-! Bytes and text. -/

/-- UTF-8 encoding of a single character (by code point), as byte values. -/
def utf8EncodeChar (c : Char) : List Nat :=
  let n := c.toNat
  if n < 0x80 then [n]
  else if n < 0x800 then
    [0xC0 ||| (n >>> 6), 0x80 ||| (n &&& 0x3F)]
  else if n < 0x10000 then
    [0xE0 ||| (n >>> 12), 0x80 ||| ((n >>> 6) &&& 0x3F), 0x80 ||| (n &&& 0x3F)]
  else
    [0xF0 ||| (n >>> 18), 0x80 ||| ((n >>> 12) &&& 0x3F),
     0x80 ||| ((n >>> 6) &&& 0x3F), 0x80 ||| (n &&& 0x3F)]

/-- UTF-8 encoding of a string: Python's `s.encode('utf-8')`. -/
def utf8Encode (s : String) : List Nat :=
  s.data.flatMap utf8EncodeChar

/-- Continuation-byte test for strict UTF-8 decoding. -/
def utf8Cont (b : Nat) : Prop :=
  0x80 ≤ b ∧ b < 0xC0

instance (b : Nat) : Decidable (utf8Cont b) :=
  inferInstanceAs (Decidable (_ ∧ _))

/-- Strict UTF-8 decoding of a byte list: Python's
`bytes.decode('utf-8')` with the default `errors='strict'`. `none` models
a raised `UnicodeDecodeError`: lone or misplaced continuation bytes,
truncated sequences, overlong encodings (`0xC0`/`0xC1`, `0xE0` with a
low second byte, `0xF0` with a low second byte), surrogates (`0xED` with
a high second byte) and code points above U+10FFFF (`0xF4` with a high
second byte, lead bytes `0xF5`–`0xFF`) are all rejected. -/
def utf8Decode : List Nat → Option (List Char)
  | [] => some []
  | b :: rest =>
    if b < 0x80 then
      (utf8Decode rest).map (fun cs => Char.ofNat b :: cs)
    else if 0xC2 ≤ b ∧ b < 0xE0 then
      match rest with
      | c1 :: rest2 =>
        if utf8Cont c1 then
          (utf8Decode rest2).map
            (fun cs => Char.ofNat (((b &&& 0x1F) <<< 6) ||| (c1 &&& 0x3F)) :: cs)
        else none
      | [] => none
    else if 0xE0 ≤ b ∧ b < 0xF0 then
      match rest with
      | c1 :: c2 :: rest3 =>
        if utf8Cont c1 ∧ utf8Cont c2 ∧ (b = 0xE0 → 0xA0 ≤ c1) ∧ (b = 0xED → c1 < 0xA0) then
          (utf8Decode rest3).map
            (fun cs => Char.ofNat
              (((b &&& 0x0F) <<< 12) ||| ((c1 &&& 0x3F) <<< 6) ||| (c2 &&& 0x3F)) :: cs)
        else none
      | _ => none
    else if 0xF0 ≤ b ∧ b < 0xF5 then
      match rest with
      | c1 :: c2 :: c3 :: rest4 =>
        if utf8Cont c1 ∧ utf8Cont c2 ∧ utf8Cont c3 ∧
            (b = 0xF0 → 0x90 ≤ c1) ∧ (b = 0xF4 → c1 < 0x90) then
          (utf8Decode rest4).map
            (fun cs => Char.ofNat (((b &&& 0x07) <<< 18) ||| ((c1 &&& 0x3F) <<< 12) |||
              ((c2 &&& 0x3F) <<< 6) ||| (c3 &&& 0x3F)) :: cs)
        else none
      | _ => none
    else none

/-- The sixteen lowercase hexadecimal digit characters. -/
def hexChars : List Char :=
  "0123456789abcdef".data

/-- Two lowercase hex characters for one byte. -/
def byteToHex (b : Nat) : List Char :=
  [hexChars.getD (b / 16 % 16) '0', hexChars.getD (b % 16) '0']

/-- Lowercase hex encoding of a byte list: `binascii.hexlify` /
`bytes.hex()` as used by `secrets.token_hex` and `hexdigest()`. -/
def bytesToHex (bs : List Nat) : String :=
  String.mk (bs.flatMap byteToHex)

/-! Base64: `base64.b64encode`, `base64.urlsafe_b64encode`. -/

/-- The standard base64 alphabet. -/
def STD_ALPHABET : String :=
  "ABCDEFGHIJKLMNOPQRSTUVWXYZabcdefghijklmnopqrstuvwxyz0123456789+/"

/-- The URL-safe base64 alphabet: `-` and `_` replace `+` and `/`. -/
def URLSAFE_ALPHABET : String :=
  "ABCDEFGHIJKLMNOPQRSTUVWXYZabcdefghijklmnopqrstuvwxyz0123456789-_"

/-- Character of a base64 alphabet at a 6-bit index. -/
def b64Char (alpha : String) (i : Nat) : Char :=
  alpha.data.getD i 'A'

/-- Base64-encode a byte list over a given alphabet, with `=` padding. -/
def b64EncodeAux (alpha : String) : List Nat → List Char
  | [] => []
  | [b1] =>
    [b64Char alpha (b1 >>> 2), b64Char alpha ((b1 &&& 3) <<< 4), '=', '=']
  | [b1, b2] =>
    [b64Char alpha (b1 >>> 2), b64Char alpha (((b1 &&& 3) <<< 4) ||| (b2 >>> 4)),
     b64Char alpha ((b2 &&& 15) <<< 2), '=']
  | b1 :: b2 :: b3 :: rest =>
    b64Char alpha (b1 >>> 2) ::
    b64Char alpha (((b1 &&& 3) <<< 4) ||| (b2 >>> 4)) ::
    b64Char alpha (((b2 &&& 15) <<< 2) ||| (b3 >>> 6)) ::
    b64Char alpha (b3 &&& 63) :: b64EncodeAux alpha rest

/-- Python `base64.b64encode(bs).decode('utf-8')`. -/
def b64encode (bs : List Nat) : String :=
  String.mk (b64EncodeAux STD_ALPHABET bs)

/-- Python `base64.urlsafe_b64encode(bs).decode('utf-8')`. -/
def urlsafe_b64encode (bs : List Nat) : String :=
  String.mk (b64EncodeAux URLSAFE_ALPHABET bs)

/-- Python's `str.rstrip('=')`: remove all trailing `=` characters. -/
def rstripEq (s : String) : String :=
  String.mk ((s.data.reverse.dropWhile (fun c => c == '=')).reverse)

/-! SHA-256: `hashlib.sha256`. -/

/-- Truncating 32-bit addition. -/
def add32 (a b : Nat) : Nat :=
  (a + b) % 4294967296

/-- Rotate right on 32 bits. -/
def rotr32 (n x : Nat) : Nat :=
  ((x >>> n) ||| (x <<< (32 - n))) % 4294967296

/-- SHA-256 `Σ0`. -/
def bigSigma0 (x : Nat) : Nat :=
  rotr32 2 x ^^^ rotr32 13 x ^^^ rotr32 22 x

/-- SHA-256 `Σ1`. -/
def bigSigma1 (x : Nat) : Nat :=
  rotr32 6 x ^^^ rotr32 11 x ^^^ rotr32 25 x

/-- SHA-256 `σ0`. -/
def smallSigma0 (x : Nat) : Nat :=
  rotr32 7 x ^^^ rotr32 18 x ^^^ (x >>> 3)

/-- SHA-256 `σ1`. -/
def smallSigma1 (x : Nat) : Nat :=
  rotr32 17 x ^^^ rotr32 19 x ^^^ (x >>> 10)

/-- SHA-256 `Ch`. -/
def sha256Ch (x y z : Nat) : Nat :=
  (x &&& y) ^^^ ((x ^^^ 0xFFFFFFFF) &&& z)

/-- SHA-256 `Maj`. -/
def sha256Maj (x y z : Nat) : Nat :=
  (x &&& y) ^^^ (x &&& z) ^^^ (y &&& z)

/-- The 64 SHA-256 round constants. -/
def sha256K : List Nat :=
  [1116352408, 1899447441, 3049323471, 3921009573, 961987163,
   1508970993, 2453635748, 2870763221, 3624381080, 310598401,
   607225278, 1426881987, 1925078388, 2162078206, 2614888103,
   3248222580, 3835390401, 4022224774, 264347078, 604807628,
   770255983, 1249150122, 1555081692, 1996064986, 2554220882,
   2821834349, 2952996808, 3210313671, 3336571891, 3584528711,
   113926993, 338241895, 666307205, 773529912, 1294757372,
   1396182291, 1695183700, 1986661051, 2177026350, 2456956037,
   2730485921, 2820302411, 3259730800, 3345764771, 3516065817,
   3600352804, 4094571909, 275423344, 430227734, 506948616,
   659060556, 883997877, 958139571, 1322822218, 1537002063,
   1747873779, 1955562222, 2024104815, 2227730452, 2361852424,
   2428436474, 2756734187, 3204031479, 3329325298]

/-- The SHA-256 initial hash value. -/
def sha256H0 : List Nat :=
  [1779033703, 3144134277, 1013904242, 2773480762,
   1359893119, 2600822924, 528734635, 1541459225]

/-- Big-endian 8-byte encoding of a bit length. -/
def lenBytes64 (bitLen : Nat) : List Nat :=
  (List.range 8).map (fun i => (bitLen >>> (8 * (7 - i))) &&& 255)

/-- SHA-256 message padding: `0x80`, zeros to 56 mod 64, 8-byte length. -/
def sha256Pad (msg : List Nat) : List Nat :=
  let len := msg.length
  let zeros := (120 - ((len + 1) % 64)) % 64
  msg ++ [0x80] ++ List.replicate zeros 0 ++ lenBytes64 (8 * len)

/-- Pack bytes into big-endian 32-bit words, four bytes at a time. -/
def bytesToWords32 : List Nat → List Nat
  | b0 :: b1 :: b2 :: b3 :: rest =>
    ((((b0 <<< 8) ||| b1) <<< 8 ||| b2) <<< 8 ||| b3) :: bytesToWords32 rest
  | _ => []

/-- One step of the SHA-256 message-schedule extension. -/
def scheduleStep (w : Array Nat) (i : Nat) : Array Nat :=
  w.push (add32 (add32 (smallSigma1 (w.getD (i - 2) 0)) (w.getD (i - 7) 0))
    (add32 (smallSigma0 (w.getD (i - 15) 0)) (w.getD (i - 16) 0)))

/-- The full 64-word SHA-256 message schedule of one block. -/
def sha256Schedule (w0 : List Nat) : List Nat :=
  ((List.range 48).foldl (fun w j => scheduleStep w (16 + j)) w0.toArray).toList

/-- One SHA-256 compression round on the eight working variables. -/
def compressStep (s : List Nat) (kw : Nat × Nat) : List Nat :=
  match s with
  | [a, b, c, d, e, f, g, h] =>
    let t1 := add32 h (add32 (bigSigma1 e) (add32 (sha256Ch e f g) (add32 kw.1 kw.2)))
    let t2 := add32 (bigSigma0 a) (sha256Maj a b c)
    [add32 t1 t2, a, b, c, add32 d t1, e, f, g]
  | other => other

/-- Process one 64-byte block, updating the eight-word hash state. -/
def sha256Block (h : List Nat) (block : List Nat) : List Nat :=
  let w := sha256Schedule (bytesToWords32 block)
  let s := (sha256K.zip w).foldl compressStep h
  List.zipWith add32 h s

/-- Split a byte list into 64-byte chunks (structural recursion on a
fuel bound, so that the definition reduces in the kernel). -/
def chunks64Go : Nat → List Nat → List (List Nat)
  | _, [] => []
  | 0, _ => []
  | fuel + 1, l => l.take 64 :: chunks64Go fuel (l.drop 64)

/-- Split a byte list into 64-byte chunks. -/
def chunks64 (l : List Nat) : List (List Nat) :=
  chunks64Go l.length l

/-- Big-endian bytes of one 32-bit word. -/
def word32ToBytes (w : Nat) : List Nat :=
  [(w >>> 24) &&& 255, (w >>> 16) &&& 255, (w >>> 8) &&& 255, w &&& 255]

/-- SHA-256 digest of a byte list, as 32 bytes. -/
def sha256Bytes (msg : List Nat) : List Nat :=
  ((chunks64 (sha256Pad msg)).foldl sha256Block sha256H0).flatMap word32ToBytes

/-- Python `hashlib.sha256(s.encode('utf-8')).hexdigest()`. -/
def sha256HexOfString (s : String) : String :=
  bytesToHex (sha256Bytes (utf8Encode s))

/-! HMAC-SHA256: `hmac.new(key, msg, hashlib.sha256)`. -/

/-- HMAC-SHA256 of a message under a key, as 32 bytes. -/
def hmacSha256 (key msg : List Nat) : List Nat :=
  let key1 := if key.length > 64 then sha256Bytes key else key
  let key2 := key1 ++ List.replicate (64 - key1.length) 0
  let ipadded := key2.map (fun b => b ^^^ 0x36)
  let opadded := key2.map (fun b => b ^^^ 0x5c)
  sha256Bytes (opadded ++ sha256Bytes (ipadded ++ msg))

/-! Entropy: `secrets.token_bytes` and `secrets.token_hex`.

An entropy stream is a function `Nat → Fin 256`; an operation that draws
`n` random bytes reads stream positions `off, off+1, …, off+n-1`. -/

/-- Python `secrets.token_bytes(n)`, reading the stream from offset `off`. -/
def token_bytes (g : Nat → Fin 256) (off n : Nat) : List Nat :=
  (List.range n).map (fun i => (g (off + i)).val)

/-- Python `secrets.token_hex(n)`, reading the stream from offset `off`. -/
def token_hex (g : Nat → Fin 256) (off n : Nat) : String :=
  bytesToHex (token_bytes g off n)

/-! Python truthiness for optional strings. -/

/-- Python truthiness of an optional string: `None` and `""` are falsy. -/
def isTruthy : Option String → Bool
  | none => false
  | some s => !(s == "")

/-- Python's `a or b` on optional strings: `b` when `a` is falsy. -/
def pyOrStr (a b : Option String) : Option String :=
  if isTruthy a then a else b

/-! Topic generation: `NtfyClient.generate_secure_topic` and helpers. -/

/-- The source's `NtfyClient._generate_random_topic(length, complexity)`. -/
def _generate_random_topic (g : Nat → Fin 256) (length complexity : Nat) : String :=
  if complexity == 1 then
    rstripEq (b64encode (token_bytes g 0 length))
  else if complexity == 2 then
    token_hex g 0 length
  else
    rstripEq (urlsafe_b64encode (token_bytes g 0 length))

/-- The source's `NtfyClient._generate_hmac_topic(secret_key, identifier)` with the
default `hashlib.sha256`. -/
def _generate_hmac_topic (secret_key identifier : String) : String :=
  bytesToHex (hmacSha256 (utf8Encode secret_key) (utf8Encode identifier))

/-- Python string slicing `s[:n]` (by characters). -/
def strTake (s : String) (n : Nat) : String :=
  String.mk (s.data.take n)

/-- The second random part of a compound topic: 12 random bytes,
URL-safe base64, `=` stripped (drawn after the 8 bytes of the first part). -/
def compoundPart2 (g : Nat → Fin 256) : String :=
  rstripEq (urlsafe_b64encode (token_bytes g 8 12))

/-- The source's `NtfyClient._generate_compound_topic(base_topic)`. -/
def _generate_compound_topic (g : Nat → Fin 256) (base_topic : Option String) : String :=
  let random_part1 := token_hex g 0 8
  let random_part2 := compoundPart2 g
  if isTruthy base_topic then
    let base_hash := strTake (sha256HexOfString (base_topic.getD "")) 16
    base_hash ++ "-" ++ random_part1 ++ "-" ++ random_part2
  else
    random_part1 ++ "-" ++ random_part2

/-- Python `str(uuid.uuid4())`: 16 random bytes with the version-4 and variant
bits forced, formatted 8-4-4-4-12. -/
def uuid4String (g : Nat → Fin 256) : String :=
  let bs0 := token_bytes g 0 16
  let bs1 := bs0.set 6 (((bs0.getD 6 0) &&& 0x0F) ||| 0x40)
  let bs := bs1.set 8 (((bs1.getD 8 0) &&& 0x3F) ||| 0x80)
  bytesToHex (bs.take 4) ++ "-" ++ bytesToHex ((bs.drop 4).take 2) ++ "-" ++
    bytesToHex ((bs.drop 6).take 2) ++ "-" ++ bytesToHex ((bs.drop 8).take 2) ++ "-" ++
    bytesToHex (bs.drop 10)

/-- The keyword arguments `generate_secure_topic` reads from `**kwargs`. -/
structure TopicKwargs where
  length : Option Nat := none
  complexity : Option Nat := none
  secret_key : Option String := none
  identifier : Option String := none
  base_topic : Option String := none
deriving DecidableEq

/-- The source's `NtfyClient.generate_secure_topic(method, **kwargs)`; a raised
`ValueError` is an `Except.error` carrying the message. -/
def generate_secure_topic (g : Nat → Fin 256) (method : String)
    (kwargs : TopicKwargs) : Except String String :=
  if method == "random" then
    let length := kwargs.length.getD 32
    let complexity := kwargs.complexity.getD 2
    .ok (_generate_random_topic g length complexity)
  else if method == "hmac" then
    if !(isTruthy kwargs.secret_key) || !(isTruthy kwargs.identifier) then
      .error "For HMAC method, secret_key and identifier must be provided."
    else
      .ok (_generate_hmac_topic (kwargs.secret_key.getD "") (kwargs.identifier.getD ""))
  else if method == "uuid" then
    .ok (uuid4String g)
  else if method == "compound" then
    .ok (_generate_compound_topic g kwargs.base_topic)
  else
    .error ("Unsupported topic generation method: " ++ method)

/-! The client and its HTTP-facing operations.

`requests` is modelled by an abstract transport function. A `POST` either
yields a `Response` (any status) or raises a network-level
`RequestException`; `raise_for_status()` raises for statuses in
`[400, 600)`, and that `HTTPError` is itself a `RequestException`, so both
failure kinds land in the same `except` branch of the source. Each
operation returns, besides its Python result, the list of HTTP requests it
issued and the list of lines it printed, so "zero network calls" and
"the failure is reported" are observable. -/

/-- The client state: `base_url` and the optional default topic. -/
structure NtfyClient where
  base_url : String
  topic : Option String
deriving DecidableEq

/-- An HTTP response as far as the client inspects it: the status code and
the text of the `HTTPError` that `raise_for_status()` would raise. -/
structure Response where
  status : Nat
  httpErrorText : String
deriving DecidableEq

/-- One HTTP request issued through the session. -/
structure HttpRequest where
  url : String
  body : List Nat
  headers : List (String × String)
deriving DecidableEq

/-- Outcome of one `session.post`: a response, or a raised
network-level `RequestException` with its message. -/
inductive TransportResult where
  | response (r : Response)
  | networkError (msg : String)
deriving DecidableEq

/-- The source's `NtfyClient.__init__(base_url, topic, auto_generate_topic)`; returns
`Except` because `generate_secure_topic` can in principle raise. -/
def NtfyClient.init (g : Nat → Fin 256) (base_url : String) (topic : Option String)
    (auto_generate_topic : Bool) : Except String NtfyClient :=
  if isTruthy topic then .ok { base_url := base_url, topic := topic }
  else if auto_generate_topic then
    (generate_secure_topic g "random"
        { length := some 32, complexity := some 2 }).map
      (fun t => { base_url := base_url, topic := some t })
  else .ok { base_url := base_url, topic := none }

/-- The keyword arguments `send_notification` reads from `**kwargs`. -/
structure SendKwargs where
  priority : Option Nat := none
  title : Option String := none
  tags : Option String := none
deriving DecidableEq

/-- The headers `send_notification` builds: `Priority` always (default 3),
`Title` and `Tags` only when supplied. -/
def send_headers (kw : SendKwargs) : List (String × String) :=
  [("Priority", toString (kw.priority.getD 3))] ++
    (match kw.title with | some t => [("Title", t)] | none => []) ++
    (match kw.tags with | some t => [("Tags", t)] | none => [])

/-- The `POST` request `send_notification` issues for a resolved topic. -/
def send_request (c : NtfyClient) (message : String) (t : String)
    (kw : SendKwargs) : HttpRequest :=
  { url := c.base_url ++ "/" ++ t,
    body := utf8Encode message,
    headers := send_headers kw }

/-- The source's `NtfyClient.send_notification(message, topic, **kwargs)`. The first
component is the Python outcome — `Except.error` for the raised
`ValueError`, `.ok none` for the caught-failure path returning `None`,
`.ok (some r)` for a returned response; the second and third are the
issued requests and the printed lines. -/
def send_notification (transport : HttpRequest → TransportResult) (c : NtfyClient)
    (message : String) (topic : Option String) (kw : SendKwargs) :
    Except String (Option Response) × List HttpRequest × List String :=
  let topic1 := pyOrStr topic c.topic
  if isTruthy topic1 then
    let t := topic1.getD ""
    let req := send_request c message t kw
    match transport req with
    | .networkError e =>
        (.ok none, [req], ["Failed to send notification: " ++ e])
    | .response r =>
        if 400 ≤ r.status ∧ r.status < 600 then
          (.ok none, [req], ["Failed to send notification: " ++ r.httpErrorText])
        else
          (.ok (some r), [req], ["Notification sent successfully to topic: " ++ t])
  else
    (.error "No topic provided for sending notification.", [], [])

/-- A streaming `GET` response: status, `HTTPError` text, the raw byte
lines `iter_lines()` produces, and an optional `RequestException` raised
mid-stream. -/
structure StreamResponse where
  status : Nat
  httpErrorText : String
  lines : List (List Nat)
  midError : Option String
deriving DecidableEq

/-- Outcome of one streaming `session.get`. -/
inductive StreamResult where
  | response (r : StreamResponse)
  | networkError (msg : String)
deriving DecidableEq

/-- The generator body of `subscribe` over the received byte lines:
`if line:` skips empty heartbeat lines, `line.decode('utf-8')` strictly
decodes and yields the others. A decode failure is the raised
`UnicodeDecodeError` — not a `requests.RequestException`, so nothing
catches it and it propagates out of the iteration (the model collapses
the elements delivered before the raise into the error outcome). -/
def yieldLines : List (List Nat) → Except String (List String)
  | [] => .ok []
  | l :: rest =>
    if l.isEmpty then yieldLines rest
    else
      match utf8Decode l with
      | some cs => (yieldLines rest).map (fun ys => String.mk cs :: ys)
      | none => .error "UnicodeDecodeError"

/-- The source's `NtfyClient.subscribe(topic)`. The first component is the fully
consumed generator — `Except.error` for a raised exception (the
`ValueError` of an unresolvable topic, or a `UnicodeDecodeError` escaping
the loop), `.ok ys` for the yielded lines; then the requested URLs and
the printed lines. -/
def subscribe (stransport : String → StreamResult) (c : NtfyClient)
    (topic : Option String) :
    Except String (List String) × List String × List String :=
  let topic1 := pyOrStr topic c.topic
  if isTruthy topic1 then
    let t := topic1.getD ""
    let subscribe_url := c.base_url ++ "/" ++ t ++ "/json"
    match stransport subscribe_url with
    | .networkError e =>
        (.ok [], [subscribe_url], ["Subscription error: " ++ e])
    | .response r =>
        if 400 ≤ r.status ∧ r.status < 600 then
          (.ok [], [subscribe_url], ["Subscription error: " ++ r.httpErrorText])
        else
          match yieldLines r.lines with
          | .error e => (.error e, [subscribe_url], [])
          | .ok ys =>
              (.ok ys, [subscribe_url],
               match r.midError with
               | some e => ["Subscription error: " ++ e]
               | none => [])
  else
    (.error "No topic provided for subscription.", [], [])

/-- The source's `NtfyClient.ntfy(message, topic, **notify_kwargs)` applied to a
function and one argument: resolves the topic at wrap time (raising the
`ValueError` then), runs the wrapped callable — whose own raise is the
inner `Except.error` — and sends the notification only after it returns.
The outer value is the wrapper's outcome; then issued requests and
printed lines. -/
def ntfy_call {α β : Type} (transport : HttpRequest → TransportResult)
    (c : NtfyClient) (message : String) (topic : Option String) (kw : SendKwargs)
    (func : α → Except String β) (x : α) :
    Except String (Except String β) × List HttpRequest × List String :=
  let topic1 := pyOrStr topic c.topic
  if isTruthy topic1 then
    match func x with
    | .error e => (.ok (.error e), [], [])
    | .ok v =>
        let sent := send_notification transport c message topic1 kw
        (.ok (.ok v), sent.2.1, sent.2.2)
  else
    (.error "No topic provided for notification decorator.", [], [])

/-! Observations used by the claim statements. -/

/-- Number of `-` characters in a string. -/
def countDash (s : String) : Nat :=
  s.data.count '-'

/-- The prefix of a string before its first `-` (its first
`-`-separated segment, `s.split('-')[0]`). -/
def firstSegment (s : String) : String :=
  String.mk (s.data.takeWhile (fun c => !(c == '-')))

/-! Helper lemmas. -/

theorem getD_mem_or_default {α : Type} (l : List α) (n : Nat) (d : α) :
    l.getD n d ∈ l ∨ l.getD n d = d := by
  by_cases h : n < l.length
  · rw [List.getD_eq_getElem l d h]
    exact Or.inl (List.getElem_mem h)
  · exact Or.inr (List.getD_eq_default l d (Nat.le_of_not_lt h))

theorem hexChars_getD_mem (n : Nat) : hexChars.getD n '0' ∈ hexChars := by
  rcases getD_mem_or_default hexChars n '0' with h | h
  · exact h
  · rw [h]; decide

theorem byteToHex_subset {b : Nat} {c : Char} (h : c ∈ byteToHex b) : c ∈ hexChars := by
  simp only [byteToHex, List.mem_cons, List.not_mem_nil, or_false] at h
  rcases h with h | h <;> (rw [h]; exact hexChars_getD_mem _)

theorem bytesToHex_subset {bs : List Nat} {c : Char}
    (h : c ∈ (bytesToHex bs).data) : c ∈ hexChars := by
  have h' : c ∈ bs.flatMap byteToHex := h
  obtain ⟨b, _, hb⟩ := List.mem_flatMap.mp h'
  exact byteToHex_subset hb

theorem bytesToHex_length (bs : List Nat) :
    (bytesToHex bs).data.length = 2 * bs.length := by
  show (bs.flatMap byteToHex).length = 2 * bs.length
  induction bs with
  | nil => rfl
  | cons b t ih =>
    simp only [List.flatMap_cons, List.length_append, ih, List.length_cons, byteToHex,
      List.length_nil]
    omega

theorem b64Char_ne (alpha : String) (halpha : ∀ c ∈ alpha.data, c ≠ '=') (i : Nat) :
    b64Char alpha i ≠ '=' := by
  rcases getD_mem_or_default alpha.data i 'A' with h | h
  · exact halpha _ h
  · show alpha.data.getD i 'A' ≠ '='
    rw [h]; decide

theorem std_alphabet_ne : ∀ c ∈ STD_ALPHABET.data, c ≠ '=' := by decide

theorem urlsafe_alphabet_ne : ∀ c ∈ URLSAFE_ALPHABET.data, c ≠ '=' := by decide

theorem b64EncodeAux_decomp (alpha : String) (halpha : ∀ c ∈ alpha.data, c ≠ '=') :
    ∀ bs : List Nat, ∃ gs n, b64EncodeAux alpha bs = gs ++ List.replicate n '=' ∧
      (∀ c ∈ gs, c ≠ '=') ∧ (bs ≠ [] → gs ≠ [])
  | [] => ⟨[], 0, by simp [b64EncodeAux], by simp, by simp⟩
  | [b1] =>
    ⟨[b64Char alpha (b1 >>> 2), b64Char alpha ((b1 &&& 3) <<< 4)], 2, rfl, by
      intro c hc
      simp only [List.mem_cons, List.not_mem_nil, or_false] at hc
      rcases hc with h | h <;> (rw [h]; exact b64Char_ne alpha halpha _)
      , by simp⟩
  | [b1, b2] =>
    ⟨[b64Char alpha (b1 >>> 2), b64Char alpha (((b1 &&& 3) <<< 4) ||| (b2 >>> 4)),
      b64Char alpha ((b2 &&& 15) <<< 2)], 1, rfl, by
      intro c hc
      simp only [List.mem_cons, List.not_mem_nil, or_false] at hc
      rcases hc with h | h | h <;> (rw [h]; exact b64Char_ne alpha halpha _)
      , by simp⟩
  | b1 :: b2 :: b3 :: rest => by
    obtain ⟨gs, n, heq, hne, _⟩ := b64EncodeAux_decomp alpha halpha rest
    refine ⟨b64Char alpha (b1 >>> 2) ::
      b64Char alpha (((b1 &&& 3) <<< 4) ||| (b2 >>> 4)) ::
      b64Char alpha (((b2 &&& 15) <<< 2) ||| (b3 >>> 6)) ::
      b64Char alpha (b3 &&& 63) :: gs, n, ?_, ?_, by simp⟩
    · show b64EncodeAux alpha (b1 :: b2 :: b3 :: rest) = _
      rw [b64EncodeAux, heq]
      simp [List.cons_append]
    · intro c hc
      simp only [List.mem_cons] at hc
      rcases hc with h | h | h | h | h <;> first
        | (rw [h]; exact b64Char_ne alpha halpha _)
        | exact hne c h

theorem dropWhile_replicate_append (gs : List Char) (n : Nat) :
    List.dropWhile (fun c => c == '=') (List.replicate n '=' ++ gs) =
      List.dropWhile (fun c => c == '=') gs := by
  induction n with
  | zero => simp
  | succ k ih =>
    rw [List.replicate_succ, List.cons_append, List.dropWhile_cons]
    simp [ih]

theorem dropWhile_of_all_ne (gs : List Char) (h : ∀ c ∈ gs, c ≠ '=') :
    List.dropWhile (fun c => c == '=') gs = gs := by
  cases hg : gs with
  | nil => simp
  | cons a t =>
    have ha : a ≠ '=' := by
      apply h
      rw [hg]
      exact List.mem_cons_self a t
    rw [List.dropWhile_cons]
    simp [ha]

theorem rstrip_decomp (gs : List Char) (n : Nat) (h : ∀ c ∈ gs, c ≠ '=') :
    ((gs ++ List.replicate n '=').reverse.dropWhile (fun c => c == '=')).reverse = gs := by
  rw [List.reverse_append, List.reverse_replicate, dropWhile_replicate_append,
    dropWhile_of_all_ne gs.reverse (fun c hc => h c (List.mem_reverse.mp hc)),
    List.reverse_reverse]

theorem rstripEq_b64_spec (alpha : String) (halpha : ∀ c ∈ alpha.data, c ≠ '=')
    (bs : List Nat) :
    (∀ c ∈ (rstripEq (String.mk (b64EncodeAux alpha bs))).data, c ≠ '=') ∧
      (bs ≠ [] → (rstripEq (String.mk (b64EncodeAux alpha bs))).data ≠ []) := by
  obtain ⟨gs, n, heq, hne, hnonempty⟩ := b64EncodeAux_decomp alpha halpha bs
  have hdata : (rstripEq (String.mk (b64EncodeAux alpha bs))).data = gs := by
    show ((b64EncodeAux alpha bs).reverse.dropWhile (fun c => c == '=')).reverse = gs
    rw [heq]
    exact rstrip_decomp gs n hne
  rw [hdata]
  refine ⟨hne, fun hbs hgs => hnonempty hbs hgs⟩

theorem str_ne_empty_iff (s : String) : s ≠ "" ↔ s.data ≠ [] := by
  constructor
  · intro h hd
    exact h (by cases s; simp_all)
  · intro h hs
    exact h (by rw [hs])

theorem token_bytes_length (g : Nat → Fin 256) (off n : Nat) :
    (token_bytes g off n).length = n := by
  simp [token_bytes]

theorem token_hex_chars (g : Nat → Fin 256) (off n : Nat) :
    ∀ c ∈ (token_hex g off n).data, c ∈ hexChars :=
  fun _ hc => bytesToHex_subset hc

theorem token_hex_length (g : Nat → Fin 256) (off n : Nat) :
    (token_hex g off n).data.length = 2 * n := by
  show (bytesToHex (token_bytes g off n)).data.length = 2 * n
  rw [bytesToHex_length, token_bytes_length]

theorem mem_hexChars_ne_dash {c : Char} (h : c ∈ hexChars) : c ≠ '-' := by
  fin_cases h <;> decide

theorem mem_hexChars_ne_eqsign {c : Char} (h : c ∈ hexChars) : c ≠ '=' := by
  fin_cases h <;> decide

theorem countDash_append (a b : String) :
    countDash (a ++ b) = countDash a + countDash b := by
  show (a ++ b).data.count '-' = a.data.count '-' + b.data.count '-'
  rw [String.data_append, List.count_append]

theorem countDash_eq_zero_of_hex (s : String) (h : ∀ c ∈ s.data, c ∈ hexChars) :
    countDash s = 0 :=
  List.count_eq_zero.mpr (fun hmem => mem_hexChars_ne_dash (h _ hmem) rfl)

theorem countDash_dash : countDash "-" = 1 := by decide

theorem takeWhile_ne_dash (xs rest : List Char) (h : ∀ x ∈ xs, x ≠ '-') :
    (xs ++ '-' :: rest).takeWhile (fun c => !(c == '-')) = xs := by
  induction xs with
  | nil => simp [List.takeWhile_cons]
  | cons a t ih =>
    have ha : a ≠ '-' := h a (List.mem_cons_self a t)
    rw [List.cons_append, List.takeWhile_cons]
    simp [ha, ih (fun x hx => h x (List.mem_cons_of_mem a hx))]

/-! Concrete entropy streams used for witnesses and counterexamples. -/

/-- The all-zero entropy stream. -/
def zeroEntropy : Nat → Fin 256 := fun _ => 0

/-- The all-`0xF8` entropy stream (every 6-bit base64 group is `62`). -/
def f8Entropy : Nat → Fin 256 := fun _ => 248

/-! Claim C3 — the `random` strategy. -/

theorem random_topic_c1_eq (g : Nat → Fin 256) (L : Nat) :
    _generate_random_topic g L 1 = rstripEq (b64encode (token_bytes g 0 L)) := by
  simp [_generate_random_topic]

theorem random_topic_c2_eq (g : Nat → Fin 256) (L : Nat) :
    _generate_random_topic g L 2 = token_hex g 0 L := by
  simp [_generate_random_topic]

theorem random_topic_c3_eq (g : Nat → Fin 256) (L : Nat) :
    _generate_random_topic g L 3 = rstripEq (urlsafe_b64encode (token_bytes g 0 L)) := by
  simp [_generate_random_topic]

theorem token_bytes_ne_nil (g : Nat → Fin 256) (off L : Nat) (hL : 1 ≤ L) :
    token_bytes g off L ≠ [] := by
  intro hnil
  have h := token_bytes_length g off L
  rw [hnil] at h
  simp at h
  omega

theorem token_hex_ne_empty (g : Nat → Fin 256) (off L : Nat) (hL : 1 ≤ L) :
    token_hex g off L ≠ "" := by
  rw [str_ne_empty_iff]
  intro hnil
  have h := token_hex_length g off L
  rw [hnil] at h
  simp at h
  omega

/-- C3 (amended): for `L ≥ 1` and `complexity ∈ {1,2,3}`,
`generate_secure_topic(method='random', length=L, complexity=c)` returns
(never raises) a non-empty string with no `=` characters, and the
complexity-2 output is all lowercase hex of length exactly `2*L`.
(The original claim, quantified over every length, fails at `L = 0`.) -/
theorem C3_random_topic_amended (g : Nat → Fin 256) (L complexity : Nat)
    (hc : complexity = 1 ∨ complexity = 2 ∨ complexity = 3) (hL : 1 ≤ L) :
    generate_secure_topic g "random" { length := some L, complexity := some complexity } =
      .ok (_generate_random_topic g L complexity) ∧
    _generate_random_topic g L complexity ≠ "" ∧
    (∀ c ∈ (_generate_random_topic g L complexity).data, c ≠ '=') ∧
    (_generate_random_topic g L 2).data.length = 2 * L ∧
    (∀ c ∈ (_generate_random_topic g L 2).data, c ∈ hexChars) := by
  refine ⟨by simp [generate_secure_topic], ?_, ?_, ?_, ?_⟩
  · rcases hc with h | h | h <;> subst h
    · rw [random_topic_c1_eq]
      exact (str_ne_empty_iff _).mpr
        ((rstripEq_b64_spec STD_ALPHABET std_alphabet_ne _).2
          (token_bytes_ne_nil g 0 L hL))
    · rw [random_topic_c2_eq]
      exact token_hex_ne_empty g 0 L hL
    · rw [random_topic_c3_eq]
      exact (str_ne_empty_iff _).mpr
        ((rstripEq_b64_spec URLSAFE_ALPHABET urlsafe_alphabet_ne _).2
          (token_bytes_ne_nil g 0 L hL))
  · rcases hc with h | h | h <;> subst h
    · rw [random_topic_c1_eq]
      exact (rstripEq_b64_spec STD_ALPHABET std_alphabet_ne _).1
    · rw [random_topic_c2_eq]
      exact fun c hc => mem_hexChars_ne_eqsign (token_hex_chars g 0 L c hc)
    · rw [random_topic_c3_eq]
      exact (rstripEq_b64_spec URLSAFE_ALPHABET urlsafe_alphabet_ne _).1
  · rw [random_topic_c2_eq]
    exact token_hex_length g 0 L
  · rw [random_topic_c2_eq]
    exact token_hex_chars g 0 L

/-- C3 (counterexample): at length `L = 0` — an instance of the claim's
"for every length L" — the complexity-2 output is the empty string, so it
is neither non-empty nor a match for `^[0-9a-f]+$`. -/
theorem C3_random_topic_cex :
    generate_secure_topic zeroEntropy "random"
      { length := some 0, complexity := some 2 } = .ok "" := by
  rfl

/-- Witness for `C3_random_topic_amended` at `g = zeroEntropy`, `L = 1`. -/
theorem C3_random_topic_witness :
    _generate_random_topic zeroEntropy 1 1 ≠ "" ∧
      (_generate_random_topic zeroEntropy 1 2).data.length = 2 * 1 :=
  ⟨(C3_random_topic_amended zeroEntropy 1 1 (Or.inl rfl) (by decide)).2.1,
   (C3_random_topic_amended zeroEntropy 1 2 (Or.inr (Or.inl rfl)) (by decide)).2.2.2.1⟩

/-! Claim C1 — the `compound` strategy. -/

theorem compound_none_eq (g : Nat → Fin 256) :
    _generate_compound_topic g none = token_hex g 0 8 ++ "-" ++ compoundPart2 g := rfl

theorem compound_some_eq (g : Nat → Fin 256) (bt : String) (hbt : bt ≠ "") :
    _generate_compound_topic g (some bt) =
      strTake (sha256HexOfString bt) 16 ++ "-" ++ token_hex g 0 8 ++ "-" ++
        compoundPart2 g := by
  simp [_generate_compound_topic, isTruthy, hbt]

theorem sha256Hex_chars (s : String) :
    ∀ c ∈ (sha256HexOfString s).data, c ∈ hexChars :=
  fun _ hc => bytesToHex_subset hc

theorem strTake_subset_chars (s : String) (n : Nat) {c : Char}
    (hc : c ∈ (strTake s n).data) : c ∈ s.data :=
  List.take_subset n s.data hc

theorem countDash_strTake_sha (bt : String) :
    countDash (strTake (sha256HexOfString bt) 16) = 0 :=
  countDash_eq_zero_of_hex _
    (fun c hc => sha256Hex_chars bt c (strTake_subset_chars _ _ hc))

theorem countDash_token_hex (g : Nat → Fin 256) (off n : Nat) :
    countDash (token_hex g off n) = 0 :=
  countDash_eq_zero_of_hex _ (token_hex_chars g off n)

theorem firstSegment_eq_of_data (s : String) (bh : String) (t : List Char)
    (hd : s.data = bh.data ++ '-' :: t) (h : ∀ c ∈ bh.data, c ≠ '-') :
    firstSegment s = bh := by
  show String.mk (s.data.takeWhile (fun c => !(c == '-'))) = bh
  rw [hd, takeWhile_ne_dash bh.data t h]

/-- C1 (amended): `generate_secure_topic(method='compound')` concatenates
its parts with `-`; since the second random part is URL-safe base64 whose
alphabet itself contains `-`, the number of `-` characters is `1` (resp.
`2` with a base topic) **plus** the number of `-`s inside that random
part — not exactly one/two. The first `-`-separated segment with a
non-empty base topic is still exactly the first 16 hex characters of the
SHA-256 digest of the base topic. -/
theorem C1_compound_topic_amended (g : Nat → Fin 256) (bt : String) (hbt : bt ≠ "") :
    generate_secure_topic g "compound" { base_topic := some bt } =
      .ok (_generate_compound_topic g (some bt)) ∧
    generate_secure_topic g "compound" {} = .ok (_generate_compound_topic g none) ∧
    countDash (_generate_compound_topic g none) = 1 + countDash (compoundPart2 g) ∧
    countDash (_generate_compound_topic g (some bt)) =
      2 + countDash (compoundPart2 g) ∧
    firstSegment (_generate_compound_topic g (some bt)) =
      strTake (sha256HexOfString bt) 16 := by
  refine ⟨rfl, rfl, ?_, ?_, ?_⟩
  · rw [compound_none_eq, countDash_append, countDash_append, countDash_token_hex,
      countDash_dash]
  · rw [compound_some_eq g bt hbt, countDash_append, countDash_append,
      countDash_append, countDash_append, countDash_strTake_sha,
      countDash_token_hex, countDash_dash]
  · rw [compound_some_eq g bt hbt]
    refine firstSegment_eq_of_data _ _
      ((token_hex g 0 8).data ++ '-' :: (compoundPart2 g).data) ?_ ?_
    · simp only [String.data_append, List.append_assoc]
      rfl
    · exact fun c hc =>
        mem_hexChars_ne_dash (sha256Hex_chars bt c (strTake_subset_chars _ _ hc))

/-- C1 (counterexample): with entropy bytes all `0xF8`, every 6-bit base64
group is `62`, which the URL-safe alphabet maps to `-`; the compound topic
with no base topic then contains five `-` characters, not exactly one, and
with base topic `"x"` six, not exactly two. -/
theorem C1_compound_topic_cex :
    generate_secure_topic f8Entropy "compound" {} =
      .ok (_generate_compound_topic f8Entropy none) ∧
    countDash (_generate_compound_topic f8Entropy none) = 5 ∧
    countDash (_generate_compound_topic f8Entropy (some "x")) = 6 := by
  refine ⟨rfl, by decide, by decide⟩

/-- Witness for `C1_compound_topic_amended` at `g = zeroEntropy`,
`bt = "x"`: no `-` falls in the base64 part, so the counts are 1 and 2. -/
theorem C1_compound_topic_witness :
    countDash (_generate_compound_topic zeroEntropy none) = 1 ∧
    countDash (_generate_compound_topic zeroEntropy (some "x")) = 2 ∧
    firstSegment (_generate_compound_topic zeroEntropy (some "x")) =
      strTake (sha256HexOfString "x") 16 :=
  ⟨((C1_compound_topic_amended zeroEntropy "x" (by decide)).2.2.1).trans (by decide),
   ((C1_compound_topic_amended zeroEntropy "x" (by decide)).2.2.2.1).trans (by decide),
   (C1_compound_topic_amended zeroEntropy "x" (by decide)).2.2.2.2⟩

/-! Claims C7 and C9 — the `hmac` strategy. -/

theorem gst_hmac_ok (g : Nat → Fin 256) (kwargs : TopicKwargs) (k i : String)
    (hk : kwargs.secret_key = some k) (hi : kwargs.identifier = some i)
    (hk0 : k ≠ "") (hi0 : i ≠ "") :
    generate_secure_topic g "hmac" kwargs =
      .ok (bytesToHex (hmacSha256 (utf8Encode k) (utf8Encode i))) := by
  simp [generate_secure_topic, hk, hi, isTruthy, hk0, hi0, _generate_hmac_topic]

/-- C7: the `hmac` strategy is deterministic — it never reads the entropy
stream, so two calls with the same `secret_key`/`identifier` agree for any
two entropy streams — and its output is the lowercase hex digest of
HMAC-SHA256 over the UTF-8 encodings of the two arguments. -/
theorem C7_hmac_deterministic (g1 g2 : Nat → Fin 256) (kwargs : TopicKwargs)
    (k i : String) (hk : kwargs.secret_key = some k) (hi : kwargs.identifier = some i)
    (hk0 : k ≠ "") (hi0 : i ≠ "") :
    generate_secure_topic g1 "hmac" kwargs = generate_secure_topic g2 "hmac" kwargs ∧
    generate_secure_topic g1 "hmac" kwargs =
      .ok (bytesToHex (hmacSha256 (utf8Encode k) (utf8Encode i))) ∧
    (∀ c ∈ (_generate_hmac_topic k i).data, c ∈ hexChars) :=
  ⟨(gst_hmac_ok g1 kwargs k i hk hi hk0 hi0).trans
      (gst_hmac_ok g2 kwargs k i hk hi hk0 hi0).symm,
   gst_hmac_ok g1 kwargs k i hk hi hk0 hi0,
   fun _ hc => bytesToHex_subset hc⟩

/-- Witness for `C7_hmac_deterministic`: two different entropy streams,
same key and identifier, identical results. -/
theorem C7_hmac_witness :
    generate_secure_topic zeroEntropy "hmac"
        { secret_key := some "key", identifier := some "id" } =
      generate_secure_topic f8Entropy "hmac"
        { secret_key := some "key", identifier := some "id" } :=
  (C7_hmac_deterministic zeroEntropy f8Entropy
    { secret_key := some "key", identifier := some "id" }
    "key" "id" rfl rfl (by decide) (by decide)).1

/-- C9: the `hmac` strategy with a missing (or Python-falsy) `secret_key`
or `identifier` raises the `ValueError` naming the requirement, for every
entropy stream — so before any entropy is read and with no value returned. -/
theorem C9_hmac_missing_args (g : Nat → Fin 256) (kwargs : TopicKwargs)
    (h : isTruthy kwargs.secret_key = false ∨ isTruthy kwargs.identifier = false) :
    generate_secure_topic g "hmac" kwargs =
      .error "For HMAC method, secret_key and identifier must be provided." := by
  rcases h with h | h <;> simp [generate_secure_topic, h]

/-- Witness for `C9_hmac_missing_args`: `secret_key` absent. -/
theorem C9_hmac_witness :
    generate_secure_topic zeroEntropy "hmac" { identifier := some "id" } =
      .error "For HMAC method, secret_key and identifier must be provided." :=
  C9_hmac_missing_args zeroEntropy { identifier := some "id" } (Or.inl rfl)

/-! Claim C10 — constructor default topic. -/

theorem send_notification_ok (transport : HttpRequest → TransportResult)
    (c : NtfyClient) (m : String) (topic : Option String) (kw : SendKwargs)
    (h : isTruthy (pyOrStr topic c.topic) = true) :
    ∃ r, (send_notification transport c m topic kw).1 = .ok r := by
  unfold send_notification
  simp only [h, if_true]
  rcases transport (send_request c m ((pyOrStr topic c.topic).getD "") kw) with r | e
  · by_cases hs : 400 ≤ r.status ∧ r.status < 600
    · simp only [if_pos hs]
      exact ⟨none, rfl⟩
    · simp only [if_neg hs]
      exact ⟨some r, rfl⟩
  · exact ⟨none, rfl⟩

/-- C10: a client constructed with no topic and the default
`auto_generate_topic = True` gets `generate_secure_topic('random', 32, 2)`
as its topic — 32 random bytes hex-encoded, 64 lowercase hex characters;
the topic stays `None` only with `auto_generate_topic = False`; and a
default-constructed client never hits the no-topic `ValueError` when
sending without an explicit topic. -/
theorem C10_init_auto_topic (g : Nat → Fin 256) (base_url : String) :
    NtfyClient.init g base_url none true =
      .ok { base_url := base_url, topic := some (token_hex g 0 32) } ∧
    (token_hex g 0 32).data.length = 64 ∧
    (∀ c ∈ (token_hex g 0 32).data, c ∈ hexChars) ∧
    NtfyClient.init g base_url none false =
      .ok { base_url := base_url, topic := none } ∧
    ∀ (transport : HttpRequest → TransportResult) (m : String) (kw : SendKwargs),
      ∃ r, (send_notification transport
        { base_url := base_url, topic := some (token_hex g 0 32) } m none kw).1 = .ok r := by
  refine ⟨rfl, by rw [token_hex_length], token_hex_chars g 0 32, rfl, ?_⟩
  intro transport m kw
  apply send_notification_ok
  have hne : token_hex g 0 32 ≠ "" := token_hex_ne_empty g 0 32 (by omega)
  simp [pyOrStr, isTruthy, hne]

/-! Claim C2 — configuration error before any network call. -/

/-- A transport that would record a call if one were ever issued. -/
def noTransport : HttpRequest → TransportResult :=
  fun _ => TransportResult.networkError "unreachable"

/-- A stream transport that would record a call if one were ever issued. -/
def noStream : String → StreamResult :=
  fun _ => StreamResult.networkError "unreachable"

/-- C2: with a Python-falsy explicit topic argument and a falsy default
topic, `send_notification`, `subscribe` and the `ntfy` decorator (at wrap
time) each raise their descriptive `ValueError` and issue zero requests —
for every transport, so before any network call. -/
theorem C2_no_topic_config_error (transport : HttpRequest → TransportResult)
    (stransport : String → StreamResult) (c : NtfyClient) (m : String)
    (kw : SendKwargs) {α β : Type} (func : α → Except String β) (x : α)
    (topicArg : Option String)
    (harg : isTruthy topicArg = false) (hdef : isTruthy c.topic = false) :
    send_notification transport c m topicArg kw =
      (.error "No topic provided for sending notification.", [], []) ∧
    subscribe stransport c topicArg =
      (.error "No topic provided for subscription.", [], []) ∧
    ntfy_call transport c m topicArg kw func x =
      (.error "No topic provided for notification decorator.", [], []) := by
  have hres : isTruthy (pyOrStr topicArg c.topic) = false := by
    simp [pyOrStr, harg, hdef]
  refine ⟨?_, ?_, ?_⟩ <;>
    simp [send_notification, subscribe, ntfy_call, hres]

/-- Witness for `C2_no_topic_config_error`: default client state with no
topic anywhere; the send raises and records zero requests. -/
theorem C2_no_topic_witness :
    send_notification noTransport { base_url := "https://ntfy.sh", topic := none }
        "hello" none {} =
      (.error "No topic provided for sending notification.", [], []) ∧
    subscribe noStream { base_url := "https://ntfy.sh", topic := none } none =
      (.error "No topic provided for subscription.", [], []) :=
  ⟨(C2_no_topic_config_error noTransport noStream
      { base_url := "https://ntfy.sh", topic := none } "hello" {}
      (fun _ : Unit => Except.ok ()) () none rfl rfl).1,
   (C2_no_topic_config_error noTransport noStream
      { base_url := "https://ntfy.sh", topic := none } "hello" {}
      (fun _ : Unit => Except.ok ()) () none rfl rfl).2.1⟩

/-! Claim C8 — topic resolution. -/

theorem pyOrStr_truthy {a : Option String} (b : Option String)
    (h : isTruthy a = true) : pyOrStr a b = a := by
  simp [pyOrStr, h]

theorem pyOrStr_none (b : Option String) : pyOrStr none b = b := rfl

theorem pyOrStr_self (b : Option String) : pyOrStr b b = b := by
  unfold pyOrStr
  split <;> rfl

theorem isTruthy_some_ne {t : String} (ht : t ≠ "") : isTruthy (some t) = true := by
  simp [isTruthy, ht]

theorem send_notification_requests (transport : HttpRequest → TransportResult)
    (c : NtfyClient) (m : String) (topic : Option String) (kw : SendKwargs)
    (h : isTruthy (pyOrStr topic c.topic) = true) :
    (send_notification transport c m topic kw).2.1 =
      [send_request c m ((pyOrStr topic c.topic).getD "") kw] := by
  unfold send_notification
  simp only [h, if_true]
  rcases transport (send_request c m ((pyOrStr topic c.topic).getD "") kw) with r | e
  · by_cases hs : 400 ≤ r.status ∧ r.status < 600 <;> simp [hs]
  · rfl

theorem subscribe_requests (stransport : String → StreamResult)
    (c : NtfyClient) (topic : Option String)
    (h : isTruthy (pyOrStr topic c.topic) = true) :
    (subscribe stransport c topic).2.1 =
      [c.base_url ++ "/" ++ (pyOrStr topic c.topic).getD "" ++ "/json"] := by
  unfold subscribe
  simp only [h, if_true]
  rcases stransport (c.base_url ++ "/" ++ (pyOrStr topic c.topic).getD "" ++ "/json")
    with r | e
  · by_cases hs : 400 ≤ r.status ∧ r.status < 600
    · simp [hs]
    · rcases hy : yieldLines r.lines with e1 | ys <;> simp [hs, hy]
  · rfl

/-- C8 (amended): topic resolution is explicit-argument-first for
*non-empty* explicit arguments: each operation then behaves identically
for every value of the client's default topic and targets the explicit
topic; with an absent explicit argument the default is used. (As stated
over all supplied arguments the claim fails: an explicit empty string is
Python-falsy, so `topic or self.topic` falls back to the default.) -/
theorem C8_explicit_first_amended (transport : HttpRequest → TransportResult)
    (stransport : String → StreamResult) (c : NtfyClient) (m : String)
    (kw : SendKwargs) {α β : Type} (func : α → Except String β) (x : α)
    (t : String) (X : Option String) (ht : t ≠ "") :
    send_notification transport { c with topic := X } m (some t) kw =
      send_notification transport c m (some t) kw ∧
    (send_notification transport c m (some t) kw).2.1 = [send_request c m t kw] ∧
    subscribe stransport { c with topic := X } (some t) =
      subscribe stransport c (some t) ∧
    (subscribe stransport c (some t)).2.1 = [c.base_url ++ "/" ++ t ++ "/json"] ∧
    ntfy_call transport { c with topic := X } m (some t) kw func x =
      ntfy_call transport c m (some t) kw func x ∧
    send_notification transport c m none kw =
      send_notification transport c m c.topic kw ∧
    subscribe stransport c none = subscribe stransport c c.topic ∧
    ntfy_call transport c m none kw func x =
      ntfy_call transport c m c.topic kw func x := by
  have htr : isTruthy (some t) = true := isTruthy_some_ne ht
  have hrw : ∀ b, pyOrStr (some t) b = some t := fun b => pyOrStr_truthy b htr
  refine ⟨?_, ?_, ?_, ?_, ?_, ?_, ?_, ?_⟩
  · simp only [send_notification, hrw]
    rfl
  · rw [send_notification_requests transport c m (some t) kw
      (by rw [hrw]; exact htr), hrw]
    rfl
  · simp only [subscribe, hrw]
  · rw [subscribe_requests stransport c (some t) (by rw [hrw]; exact htr), hrw]
    rfl
  · simp only [ntfy_call, send_notification, hrw]
    rfl
  · simp only [send_notification, pyOrStr_none, pyOrStr_self]
  · simp only [subscribe, pyOrStr_none, pyOrStr_self]
  · simp only [ntfy_call, send_notification, pyOrStr_none, pyOrStr_self]

/-- A transport that always answers 200 OK. -/
def okTransport : HttpRequest → TransportResult :=
  fun _ => TransportResult.response { status := 200, httpErrorText := "" }

/-- C8 (counterexample): an explicit — but empty — topic argument is
supplied, yet the issued request targets the client's default topic `d`:
the default IS used although an explicit argument was supplied, because
`topic or self.topic` tests Python truthiness, not presence. -/
theorem C8_explicit_first_cex :
    (send_notification okTransport { base_url := "http://h", topic := some "d" }
        "m" (some "") {}).2.1 =
      [{ url := "http://h/d", body := utf8Encode "m",
         headers := [("Priority", "3")] }] := by
  decide

/-- Witness for `C8_explicit_first_amended`: a non-empty explicit topic
`t` wins over the default `d` in the issued request and subscribe URL. -/
theorem C8_explicit_first_witness :
    (send_notification okTransport { base_url := "http://h", topic := some "d" }
        "m" (some "t") {}).2.1 =
      [send_request { base_url := "http://h", topic := some "d" } "m" "t" {}] ∧
    (subscribe noStream { base_url := "http://h", topic := some "d" }
        (some "t")).2.1 = ["http://h" ++ "/" ++ "t" ++ "/json"] :=
  ⟨(C8_explicit_first_amended okTransport noStream
      { base_url := "http://h", topic := some "d" } "m" {}
      (fun _ : Unit => Except.ok ()) () "t" none (by decide)).2.1,
   (C8_explicit_first_amended okTransport noStream
      { base_url := "http://h", topic := some "d" } "m" {}
      (fun _ : Unit => Except.ok ()) () "t" none (by decide)).2.2.2.1⟩

/-! Claim C4 — the `ntfy` decorator. -/

/-- C4: with a resolvable topic, a call through the decorator's wrapper
returns exactly the wrapped callable's value, and exactly one request is
issued (by the `send_notification` performed only in the success branch,
after the callable returns); if the callable raises, no request is issued
and the error propagates unchanged. -/
theorem C4_decorator_passthrough (transport : HttpRequest → TransportResult)
    (c : NtfyClient) (m : String) (topicArg : Option String) (kw : SendKwargs)
    {α β : Type} (func : α → Except String β) (x : α) (v : β) (e : String)
    (ht : isTruthy (pyOrStr topicArg c.topic) = true) :
    (func x = .ok v →
      ntfy_call transport c m topicArg kw func x =
        (.ok (.ok v),
         [send_request c m ((pyOrStr topicArg c.topic).getD "") kw],
         (send_notification transport c m (pyOrStr topicArg c.topic) kw).2.2)) ∧
    (func x = .error e →
      ntfy_call transport c m topicArg kw func x = (.ok (.error e), [], [])) := by
  constructor
  · intro hf
    have htr1 : isTruthy (pyOrStr (pyOrStr topicArg c.topic) c.topic) = true := by
      rw [pyOrStr_truthy c.topic ht]
      exact ht
    have hreq := send_notification_requests transport c m (pyOrStr topicArg c.topic)
      kw htr1
    rw [pyOrStr_truthy c.topic ht] at hreq
    unfold ntfy_call
    simp only [ht, if_true, hf, hreq]
  · intro hf
    unfold ntfy_call
    simp only [ht, if_true, hf]

/-- Witness for `C4_decorator_passthrough`: value 42 passes through with
one successful send; a raising callable propagates with zero sends. -/
theorem C4_decorator_witness :
    ntfy_call okTransport { base_url := "http://h", topic := some "d" } "m" none {}
        (fun _ : Unit => Except.ok (42 : Nat)) () =
      (.ok (.ok 42),
       [send_request { base_url := "http://h", topic := some "d" } "m" "d" {}],
       ["Notification sent successfully to topic: " ++ "d"]) ∧
    ntfy_call okTransport { base_url := "http://h", topic := some "d" } "m" none {}
        (fun _ : Unit => (Except.error "boom" : Except String Nat)) () =
      (.ok (.error "boom"), [], []) :=
  ⟨(C4_decorator_passthrough okTransport { base_url := "http://h", topic := some "d" }
      "m" none {} (fun _ : Unit => Except.ok (42 : Nat)) () 42 "boom" (by decide)).1 rfl,
   (C4_decorator_passthrough okTransport { base_url := "http://h", topic := some "d" }
      "m" none {} (fun _ : Unit => (Except.error "boom" : Except String Nat)) () 42
      "boom" (by decide)).2 rfl⟩

/-! Claim C5 — failure handling in `send_notification`. -/

/-- A transport whose connection always fails at the network level. -/
def downTransport : HttpRequest → TransportResult :=
  fun _ => TransportResult.networkError "connection refused"

/-- A transport that always answers 404. -/
def errTransport : HttpRequest → TransportResult :=
  fun _ => TransportResult.response { status := 404, httpErrorText := "404 Client Error" }

/-- C5: with a resolvable topic, a network-level failure and an HTTP
error status (the `[400, 600)` range `raise_for_status` rejects) are both
caught and reported through the same `Failed to send notification:` print;
the call then returns `None` — no success result — without an unhandled
exception. On any other status the response object is returned. -/
theorem C5_send_failure_handling (transport : HttpRequest → TransportResult)
    (c : NtfyClient) (m : String) (topicArg : Option String) (kw : SendKwargs)
    (e : String) (r : Response)
    (ht : isTruthy (pyOrStr topicArg c.topic) = true) :
    (transport (send_request c m ((pyOrStr topicArg c.topic).getD "") kw) =
        .networkError e →
      send_notification transport c m topicArg kw =
        (.ok none, [send_request c m ((pyOrStr topicArg c.topic).getD "") kw],
         ["Failed to send notification: " ++ e])) ∧
    (transport (send_request c m ((pyOrStr topicArg c.topic).getD "") kw) =
        .response r →
      400 ≤ r.status → r.status < 600 →
      send_notification transport c m topicArg kw =
        (.ok none, [send_request c m ((pyOrStr topicArg c.topic).getD "") kw],
         ["Failed to send notification: " ++ r.httpErrorText])) ∧
    (transport (send_request c m ((pyOrStr topicArg c.topic).getD "") kw) =
        .response r →
      ¬(400 ≤ r.status ∧ r.status < 600) →
      send_notification transport c m topicArg kw =
        (.ok (some r), [send_request c m ((pyOrStr topicArg c.topic).getD "") kw],
         ["Notification sent successfully to topic: " ++
           (pyOrStr topicArg c.topic).getD ""])) := by
  refine ⟨?_, ?_, ?_⟩
  · intro htr
    unfold send_notification
    simp only [ht, if_true, htr]
  · intro htr h1 h2
    unfold send_notification
    simp only [ht, if_true, htr, if_pos (And.intro h1 h2)]
  · intro htr h12
    unfold send_notification
    simp only [ht, if_true, htr, if_neg h12]

/-- Witness for `C5_send_failure_handling`: a network failure and a 404
produce the same reporting shape with `None`; a 200 returns the response. -/
theorem C5_send_failure_witness :
    send_notification downTransport { base_url := "http://h", topic := some "d" }
        "m" none {} =
      (.ok none, [send_request { base_url := "http://h", topic := some "d" } "m" "d" {}],
       ["Failed to send notification: " ++ "connection refused"]) ∧
    send_notification errTransport { base_url := "http://h", topic := some "d" }
        "m" none {} =
      (.ok none, [send_request { base_url := "http://h", topic := some "d" } "m" "d" {}],
       ["Failed to send notification: " ++ "404 Client Error"]) ∧
    send_notification okTransport { base_url := "http://h", topic := some "d" }
        "m" none {} =
      (.ok (some { status := 200, httpErrorText := "" }),
       [send_request { base_url := "http://h", topic := some "d" } "m" "d" {}],
       ["Notification sent successfully to topic: " ++ "d"]) :=
  ⟨(C5_send_failure_handling downTransport { base_url := "http://h", topic := some "d" }
      "m" none {} "connection refused" { status := 404, httpErrorText := "404 Client Error" }
      (by decide)).1 rfl,
   (C5_send_failure_handling errTransport { base_url := "http://h", topic := some "d" }
      "m" none {} "x" { status := 404, httpErrorText := "404 Client Error" }
      (by decide)).2.1 rfl (by decide) (by decide),
   (C5_send_failure_handling okTransport { base_url := "http://h", topic := some "d" }
      "m" none {} "x" { status := 200, httpErrorText := "" }
      (by decide)).2.2 rfl (by decide)⟩

/-! Claim C6 — the subscription stream. -/

/-- A stream transport whose connection always fails. -/
def downStream : String → StreamResult :=
  fun _ => StreamResult.networkError "reset"

/-- A healthy stream carrying `hi`, an empty heartbeat line, and `é`. -/
def sampleStream : String → StreamResult :=
  fun _ => StreamResult.response
    { status := 200, httpErrorText := "",
      lines := [[104, 105], [], [0xC3, 0xA9]], midError := none }

/-- A stream with an ill-formed UTF-8 line (a lone `0xFF` byte). -/
def badStream : String → StreamResult :=
  fun _ => StreamResult.response
    { status := 200, httpErrorText := "",
      lines := [[104, 105], [0xFF]], midError := none }

theorem yieldLines_all_decoded (ls : List (List Nat))
    (h : ∀ l ∈ ls, ¬l.isEmpty → (utf8Decode l).isSome) :
    yieldLines ls = .ok ((ls.filter (fun l => !l.isEmpty)).map
      (fun l => String.mk ((utf8Decode l).getD []))) := by
  induction ls with
  | nil => rfl
  | cons l rest ih =>
    have ih2 := ih (fun x hx hne => h x (List.mem_cons_of_mem l hx) hne)
    by_cases hl : l.isEmpty
    · rw [yieldLines, if_pos hl, ih2]
      simp [List.filter_cons, hl]
    · obtain ⟨cs, hcs⟩ := Option.isSome_iff_exists.mp
        (h l (List.mem_cons_self l rest) hl)
      rw [yieldLines, if_neg hl]
      simp [hcs, ih2, List.filter_cons, hl, Except.map]

theorem yieldLines_raises (ls : List (List Nat))
    (h : ∃ l ∈ ls, ¬l.isEmpty ∧ utf8Decode l = none) :
    yieldLines ls = .error "UnicodeDecodeError" := by
  induction ls with
  | nil => simp at h
  | cons l rest ih =>
    obtain ⟨x, hx, hxe, hxd⟩ := h
    rcases List.mem_cons.mp hx with hxl | hxr
    · subst hxl
      rw [yieldLines, if_neg hxe, hxd]
    · by_cases hl : l.isEmpty
      · rw [yieldLines, if_pos hl]
        exact ih ⟨x, hxr, hxe, hxd⟩
      · rw [yieldLines, if_neg hl]
        rcases hdl : utf8Decode l with _ | cs
        · rfl
        · rw [ih ⟨x, hxr, hxe, hxd⟩]
          rfl

/-- C6: with a resolvable topic, the yielded elements are exactly the
strict UTF-8 decodings of the non-empty byte lines of the stream (empty
heartbeat lines skipped); a network failure or an HTTP error status —
the `requests.RequestException` family — is reported as a
`Subscription error:` print and the generator yields nothing further: an
empty yield list, not a raised exception. An ill-formed byte line is
different: its strict decode raises `UnicodeDecodeError`, which the
`except requests.RequestException` clause does not catch, so it
propagates out of the iteration (last conjunct). -/
theorem C6_subscribe_stream (stransport : String → StreamResult)
    (c : NtfyClient) (topicArg : Option String) (e : String) (r : StreamResponse)
    (ht : isTruthy (pyOrStr topicArg c.topic) = true) :
    (stransport (c.base_url ++ "/" ++ (pyOrStr topicArg c.topic).getD "" ++ "/json") =
        .networkError e →
      subscribe stransport c topicArg =
        (.ok [],
         [c.base_url ++ "/" ++ (pyOrStr topicArg c.topic).getD "" ++ "/json"],
         ["Subscription error: " ++ e])) ∧
    (stransport (c.base_url ++ "/" ++ (pyOrStr topicArg c.topic).getD "" ++ "/json") =
        .response r →
      400 ≤ r.status → r.status < 600 →
      subscribe stransport c topicArg =
        (.ok [],
         [c.base_url ++ "/" ++ (pyOrStr topicArg c.topic).getD "" ++ "/json"],
         ["Subscription error: " ++ r.httpErrorText])) ∧
    (stransport (c.base_url ++ "/" ++ (pyOrStr topicArg c.topic).getD "" ++ "/json") =
        .response r →
      ¬(400 ≤ r.status ∧ r.status < 600) →
      (∀ l ∈ r.lines, ¬l.isEmpty → (utf8Decode l).isSome) →
      (subscribe stransport c topicArg).1 =
        .ok ((r.lines.filter (fun l => !l.isEmpty)).map
          (fun l => String.mk ((utf8Decode l).getD [])))) ∧
    (stransport (c.base_url ++ "/" ++ (pyOrStr topicArg c.topic).getD "" ++ "/json") =
        .response r →
      ¬(400 ≤ r.status ∧ r.status < 600) →
      (∃ l ∈ r.lines, ¬l.isEmpty ∧ utf8Decode l = none) →
      (subscribe stransport c topicArg).1 = .error "UnicodeDecodeError") := by
  refine ⟨?_, ?_, ?_, ?_⟩
  · intro htr
    unfold subscribe
    simp only [ht, if_true, htr]
  · intro htr h1 h2
    unfold subscribe
    simp only [ht, if_true, htr, if_pos (And.intro h1 h2)]
  · intro htr h12 hdec
    have hY := yieldLines_all_decoded r.lines hdec
    unfold subscribe
    simp only [ht, if_true, htr, if_neg h12, hY]
  · intro htr h12 hbad
    have hY := yieldLines_raises r.lines hbad
    unfold subscribe
    simp only [ht, if_true, htr, if_neg h12, hY]

/-- Witness for `C6_subscribe_stream`: the sample stream yields exactly
the two strictly decoded non-empty lines; the failing stream yields
nothing and reports the error; the stream with an ill-formed line ends
in the propagated `UnicodeDecodeError`. -/
theorem C6_subscribe_witness :
    (subscribe sampleStream { base_url := "http://h", topic := some "d" } none).1 =
      .ok ["hi", "é"] ∧
    subscribe downStream { base_url := "http://h", topic := some "d" } none =
      (.ok [], ["http://h" ++ "/" ++ "d" ++ "/json"],
       ["Subscription error: " ++ "reset"]) ∧
    (subscribe badStream { base_url := "http://h", topic := some "d" } none).1 =
      .error "UnicodeDecodeError" :=
  ⟨((C6_subscribe_stream sampleStream { base_url := "http://h", topic := some "d" }
      none "x"
      { status := 200, httpErrorText := "",
        lines := [[104, 105], [], [0xC3, 0xA9]], midError := none }
      (by decide)).2.2.1 rfl (by decide) (by decide)).trans (by rfl),
   (C6_subscribe_stream downStream { base_url := "http://h", topic := some "d" }
      none "reset"
      { status := 200, httpErrorText := "", lines := [], midError := none }
      (by decide)).1 rfl,
   (C6_subscribe_stream badStream { base_url := "http://h", topic := some "d" }
      none "x"
      { status := 200, httpErrorText := "",
        lines := [[104, 105], [0xFF]], midError := none }
      (by decide)).2.2.2 rfl (by decide) (by decide)⟩
